import Mathlib

/-!
Shallow embedding of the asteroids game core from `src/game.py`.

Positions are pairs of rationals.  The source compares Euclidean
distances `math.sqrt((px-qx)**2 + (py-qy)**2)` against nonnegative
thresholds `c`; since `sqrt` is strictly monotone on nonnegative
reals, `distance p q < c` holds exactly when `dist2 p q < c^2` and
`distance p q > c` exactly when `dist2 p q > c^2`, so the embedding
stores squared distances and squares every threshold.

Trigonometry: ship and missiles recompute their direction from the
heading angle each frame as `(sin(-radians a), -cos(radians a))`.
This irrational-valued map is abstracted as a parameter
`Env.u : Int -> Rat x Rat`; no claim depends on its concrete values.
`Env.shipW` and `Env.shipH` are the pixel sizes of the ship image,
which come from an asset file and are likewise parameters.

Randomness: the `random.randint` position draws and the random
direction of a new `Rock` are modelled by an explicit list of
`Seed`s consumed in order by `make_rock`'s rejection loop; the
result `none` models a run whose sampler is exhausted, i.e. a run
the source never finishes.

Python iterates lists by an internal index, so `list.remove` of the
current element shifts the remainder left and the following element
is skipped, while elements appended during the loop are still
visited; `rock.move()` mutates the element in place, which the
embedding renders as `List.set` at the current index.  The loops of
`missiles_physics` and `rocks_physics` are embedded index-faithfully
in `rockLoopF`, `missileLoopF` and `rocksLoopF`.  Each carries a
fuel argument initialised by its wrapper to a bound on the number of
iterations: every iteration either consumes at least one seed or
moves the index one step closer to the end of the list, so
`seeds.length + rocks.length + 1` (resp. `missiles.length + 1`,
`rocks.length + 1`) iterations always suffice and the fuel is never
the reason for a `none` result.

Sound playback, timer (dis)arming and rendering are I/O and are not
part of the state; the timed `START` event of `run` is modelled by
applying `startEvent` to the state, its `REFRESH` event by
`refreshTick`.
-/

namespace Asteroids

/-- Squared Euclidean distance; the source's `distance` is its square root. -/
def dist2 (p q : ℚ × ℚ) : ℚ :=
  (p.1 - q.1) ^ 2 + (p.2 - q.2) ^ 2

/-- Rock size classes, `"big"`, `"normal"`, `"small"` in the source. -/
inductive RockSize where
  | big
  | normal
  | small
deriving DecidableEq

/-- Game states, `MyGame.PLAYING, DYING, GAME_OVER, STARTING`. -/
inductive GState where
  | PLAYING
  | DYING
  | GAME_OVER
  | STARTING
deriving DecidableEq

/-- One draw of the random source used by `make_rock`: a candidate
position (from `random.randint`) together with the random direction
the `Rock` constructor would pick. -/
structure Seed where
  pos : ℚ × ℚ
  dir : ℚ × ℚ
deriving DecidableEq

/-- An abstract environment: `u a` stands for
`(sin(-radians a), -cos(radians a))`, and `shipW`, `shipH` for the
width and height of the ship image. -/
structure Env where
  u : ℤ → ℚ × ℚ
  shipW : ℚ
  shipH : ℚ

/-- `Missile.__init__`: direction starts as `[0, 0]`, speed 15. -/
structure Missile where
  position : ℚ × ℚ
  angle : ℤ
  direction : ℚ × ℚ
  speed : ℚ
deriving DecidableEq

/-- `Missile.move`: recompute direction from the fixed angle, then
advance the position by direction times speed. -/
def Missile.move (env : Env) (m : Missile) : Missile :=
  let d := env.u m.angle
  { m with direction := d,
           position := (m.position.1 + d.1 * m.speed, m.position.2 + d.2 * m.speed) }

/-- `Rock`: position, size class, the direction fixed at creation,
and speed (default 4). -/
structure Rock where
  position : ℚ × ℚ
  size : RockSize
  direction : ℚ × ℚ
  speed : ℚ
deriving DecidableEq

/-- `Rock.move`: advance the position by the fixed direction times speed. -/
def Rock.move (r : Rock) : Rock :=
  { r with position := (r.position.1 + r.direction.1 * r.speed,
                        r.position.2 + r.direction.2 * r.speed) }

/-- `Spaceship`: position, heading angle in degrees, derived direction,
thrust flag, speed (default 4) and the list of active missiles. -/
structure Spaceship where
  position : ℚ × ℚ
  angle : ℤ
  direction : ℚ × ℚ
  is_moving : Bool
  speed : ℚ
  active_missiles : List Missile
deriving DecidableEq

/-- `Spaceship.move`: recompute direction from the angle and advance. -/
def Spaceship.move (env : Env) (s : Spaceship) : Spaceship :=
  let d := env.u s.angle
  { s with direction := d,
           position := (s.position.1 + d.1 * s.speed, s.position.2 + d.2 * s.speed) }

/-- `Spaceship.fire`: append a new missile at the ship's nose.  The
offset is `sin(-radians angle) * width` horizontally and
`-cos(radians angle) * height / 2` vertically, i.e. `adjust` of the
source with `adjust[1]` halved. -/
def Spaceship.fire (env : Env) (s : Spaceship) : Spaceship :=
  let d := env.u s.angle
  let adjust : ℚ × ℚ := (d.1 * env.shipW, d.2 * env.shipH)
  let new_missile : Missile :=
    { position := (s.position.1 + adjust.1, s.position.2 + adjust.2 / 2),
      angle := s.angle, direction := (0, 0), speed := 15 }
  { s with active_missiles := s.active_missiles ++ [new_missile] }

/-- The session state owned by `MyGame`. -/
structure GameState where
  width : ℤ
  height : ℤ
  rocks : List Rock
  min_rock_distance : ℚ
  lives : ℤ
  score : ℤ
  counter : ℕ
  spaceship : Spaceship
  missiles : List Missile
  state : GState
  fire_time : ℚ
  FPS : ℕ
deriving DecidableEq

/-- `Spaceship.__init__` at `(width // 2, height // 2)`: angle 0,
direction `[0, -1]`, not moving, no missiles. -/
def initShip (w h : ℤ) : Spaceship :=
  { position := (((w / 2 : ℤ) : ℚ), ((h / 2 : ℤ) : ℚ)),
    angle := 0, direction := (0, -1), is_moving := false, speed := 4,
    active_missiles := [] }

/-- `MyGame.start`: fresh ship, clear the (unused) `missiles` list,
set the state to PLAYING.  Starting the soundtrack is I/O. -/
def GameState.start (gs : GameState) : GameState :=
  { gs with spaceship := initShip gs.width gs.height,
            missiles := [], state := GState.PLAYING }

/-- `MyGame.die`: lose a life, reset the spawn counter, enter DYING.
Playing the sound and arming the one-shot START timer are I/O. -/
def GameState.die (gs : GameState) : GameState :=
  { gs with lives := gs.lives - 1, counter := 0, state := GState.DYING }

/-- `MyGame.game_over`: enter GAME_OVER.  Sound and the RESTART
timer are I/O. -/
def GameState.game_over (gs : GameState) : GameState :=
  { gs with state := GState.GAME_OVER }

/-- The rejection loop of `make_rock`: discard candidate positions
while they are within `minD` of the ship, returning the first
accepted seed and the seeds left over. -/
def pickSeedSplit (ship : ℚ × ℚ) (minD : ℚ) : List Seed → Option (Seed × List Seed)
  | [] => none
  | c :: rest =>
    if dist2 c.pos ship < minD ^ 2 then pickSeedSplit ship minD rest
    else some (c, rest)

/-- Body of `MyGame.make_rock`: sample an acceptable position, build
the rock and append it to the given rocks list. -/
def make_rock_aux (ship : ℚ × ℚ) (minD : ℚ) (sz : RockSize) (rocks : List Rock)
    (seeds : List Seed) : Option (List Rock × List Seed) :=
  match pickSeedSplit ship minD seeds with
  | none => none
  | some (c, rest) =>
    some (rocks ++ [{ position := c.pos, size := sz, direction := c.dir, speed := 4 }], rest)

/-- `MyGame.make_rock(size)` on the session state; the source's
default argument is `"big"`, so argument-less call sites pass
`RockSize.big` here. -/
def GameState.make_rock (sz : RockSize) (gs : GameState) (seeds : List Seed) :
    Option (GameState × List Seed) :=
  match make_rock_aux gs.spaceship.position gs.min_rock_distance sz gs.rocks seeds with
  | none => none
  | some (rocks2, rest) => some ({ gs with rocks := rocks2 }, rest)

/-- The mutable data of one `missiles_physics` pass: the rocks, the
active missiles list, the score, the remaining random seeds, and
whether the missile currently being processed has already been
removed (the source's `if missile in self.spaceship.active_missiles`
guard; objects compare by identity, so the guard holds exactly until
the first removal of that missile in the pass). -/
structure MPass where
  rocks : List Rock
  missiles : List Missile
  score : ℤ
  seeds : List Seed
  removed : Bool
deriving DecidableEq

/-- Inner loop of `missiles_physics` for one moved missile at `mpos`
that sits at index `mi` of the missiles list: walk the rocks list by
index `j`.  A hit (squared thresholds 80, 55, 30 squared by size)
removes the rock at `j`, removes the missile at `mi` unless already
removed, spawns the size-dependent replacement rocks via `make_rock`
(two normal / two small / one default-big) and adds the score.  The
index then advances by one over the mutated list, exactly as the
Python iterator does. -/
def rockLoopF (ship : ℚ × ℚ) (minD : ℚ) (mpos : ℚ × ℚ) (mi : ℕ) :
    ℕ → ℕ → MPass → Option MPass
  | 0, _, _ => none
  | fuel + 1, j, st =>
    if h : j < st.rocks.length then
      let r := st.rocks[j]
      match r.size with
      | RockSize.big =>
        if dist2 mpos r.position < 80 ^ 2 then
          match make_rock_aux ship minD RockSize.normal (st.rocks.eraseIdx j) st.seeds with
          | none => none
          | some (rocks2, seeds2) =>
            match make_rock_aux ship minD RockSize.normal rocks2 seeds2 with
            | none => none
            | some (rocks3, seeds3) =>
              rockLoopF ship minD mpos mi fuel (j + 1)
                { rocks := rocks3,
                  missiles := if st.removed then st.missiles else st.missiles.eraseIdx mi,
                  score := st.score + 20, seeds := seeds3, removed := true }
        else rockLoopF ship minD mpos mi fuel (j + 1) st
      | RockSize.normal =>
        if dist2 mpos r.position < 55 ^ 2 then
          match make_rock_aux ship minD RockSize.small (st.rocks.eraseIdx j) st.seeds with
          | none => none
          | some (rocks2, seeds2) =>
            match make_rock_aux ship minD RockSize.small rocks2 seeds2 with
            | none => none
            | some (rocks3, seeds3) =>
              rockLoopF ship minD mpos mi fuel (j + 1)
                { rocks := rocks3,
                  missiles := if st.removed then st.missiles else st.missiles.eraseIdx mi,
                  score := st.score + 50, seeds := seeds3, removed := true }
        else rockLoopF ship minD mpos mi fuel (j + 1) st
      | RockSize.small =>
        if dist2 mpos r.position < 30 ^ 2 then
          match make_rock_aux ship minD RockSize.big (st.rocks.eraseIdx j) st.seeds with
          | none => none
          | some (rocks2, seeds2) =>
            rockLoopF ship minD mpos mi fuel (j + 1)
              { rocks := rocks2,
                missiles := if st.removed then st.missiles else st.missiles.eraseIdx mi,
                score := st.score + 100, seeds := seeds2, removed := true }
        else rockLoopF ship minD mpos mi fuel (j + 1) st
    else some st

/-- One full rock scan for one missile, with sufficient fuel. -/
def rockPass (ship : ℚ × ℚ) (minD : ℚ) (mpos : ℚ × ℚ) (mi : ℕ) (st : MPass) :
    Option MPass :=
  rockLoopF ship minD mpos mi (st.seeds.length + st.rocks.length + 1) 0 st

/-- Outer loop of `missiles_physics`: walk the missiles list by
index `i`; move the missile at `i` in place, then scan the rocks for
it.  The index then advances by one over the mutated missiles list,
so the missile following a removed one is skipped, as in the source. -/
def missileLoopF (env : Env) (ship : ℚ × ℚ) (minD : ℚ) :
    ℕ → ℕ → MPass → Option MPass
  | 0, _, _ => none
  | fuel + 1, i, st =>
    if h : i < st.missiles.length then
      let m2 := (st.missiles[i]).move env
      match rockPass ship minD m2.position i
          { st with missiles := st.missiles.set i m2, removed := false } with
      | none => none
      | some st2 => missileLoopF env ship minD fuel (i + 1) st2
    else some st

/-- `MyGame.missiles_physics`. -/
def missiles_physics (env : Env) (gs : GameState) (seeds : List Seed) :
    Option (GameState × List Seed) :=
  if 0 < gs.spaceship.active_missiles.length then
    match missileLoopF env gs.spaceship.position gs.min_rock_distance
        (gs.spaceship.active_missiles.length + 1) 0
        { rocks := gs.rocks, missiles := gs.spaceship.active_missiles,
          score := gs.score, seeds := seeds, removed := false } with
    | none => none
    | some st =>
      some ({ gs with rocks := st.rocks,
                      score := st.score,
                      spaceship := { gs.spaceship with active_missiles := st.missiles } },
            st.seeds)
  else some (gs, seeds)

/-- Loop of `rocks_physics`: walk the rocks by index `j`; move the
rock at `j` in place; if it is within distance 90 of the ship call
`die` (for every such rock, the loop does not stop); otherwise, if
it is farther from the arena center than the half-diagonal, remove
it and spawn one default-big replacement via `make_rock`. -/
def rocksLoopF : ℕ → ℕ → GameState → List Seed → Option (GameState × List Seed)
  | 0, _, _, _ => none
  | fuel + 1, j, gs, seeds =>
    if h : j < gs.rocks.length then
      let r := (gs.rocks[j]).move
      let gs1 := { gs with rocks := gs.rocks.set j r }
      if dist2 r.position gs1.spaceship.position < 90 ^ 2 then
        rocksLoopF fuel (j + 1) gs1.die seeds
      else if ((gs1.width : ℚ) / 2) ^ 2 + ((gs1.height : ℚ) / 2) ^ 2 <
          dist2 r.position (((gs1.width : ℚ) / 2), ((gs1.height : ℚ) / 2)) then
        match GameState.make_rock RockSize.big { gs1 with rocks := gs1.rocks.eraseIdx j } seeds with
        | none => none
        | some (gs2, rest) => rocksLoopF fuel (j + 1) gs2 rest
      else rocksLoopF fuel (j + 1) gs1 seeds
    else some (gs, seeds)

/-- `MyGame.rocks_physics`. -/
def rocks_physics (gs : GameState) (seeds : List Seed) : Option (GameState × List Seed) :=
  if 0 < gs.rocks.length then rocksLoopF (gs.rocks.length + 1) 0 gs seeds
  else some (gs, seeds)

/-- `MyGame.physics`: move the ship while PLAYING. -/
def GameState.physics (env : Env) (gs : GameState) : GameState :=
  if gs.state = GState.PLAYING then
    { gs with spaceship := gs.spaceship.move env }
  else gs

/-- The space-key block of `MyGame.run`: fire only if strictly more
than 0.15 seconds (the source's `timedelta(seconds=0.15)`) have
passed since the last successful fire, and only then update the
stored fire time. -/
def handle_fire (env : Env) (gs : GameState) (space : Bool) (now : ℚ) : GameState :=
  if space then
    if now - gs.fire_time > 3 / 20 then
      { gs with spaceship := gs.spaceship.fire env, fire_time := now }
    else gs
  else gs

/-- The state-affecting tail of `MyGame.draw`: while PLAYING the
counter advances; when it reaches exactly `30 * FPS` and fewer than
10 rocks are active, one rock is spawned and the counter is reset --
the reset statement is indented under the rock-count check in the
source, so with 10 or more rocks the counter is not reset. -/
def drawStep (gs : GameState) (seeds : List Seed) : Option (GameState × List Seed) :=
  if gs.state = GState.PLAYING then
    let gs1 := { gs with counter := gs.counter + 1 }
    if gs1.counter = 30 * gs1.FPS then
      if gs1.rocks.length < 10 then
        match GameState.make_rock RockSize.big gs1 seeds with
        | none => none
        | some (gs2, rest) => some ({ gs2 with counter := 0 }, rest)
      else some (gs1, seeds)
    else some (gs1, seeds)
  else some (gs, seeds)

/-- The pressed keys a REFRESH tick reads: `space`, steering
(`left` is LEFT-or-a, `right` is RIGHT-or-d) and thrust (`up` is
UP-or-w). -/
structure Keys where
  space : Bool
  left : Bool
  right : Bool
  up : Bool
deriving DecidableEq

/-- One REFRESH event of `MyGame.run`: the fire check runs in every
state; steering, thrust, `missiles_physics` and `rocks_physics` run
only while PLAYING; `draw` runs last in every state. -/
def refreshTick (env : Env) (keys : Keys) (now : ℚ) (gs : GameState) (seeds : List Seed) :
    Option (GameState × List Seed) :=
  let gsA := handle_fire env gs keys.space now
  let stepped : Option (GameState × List Seed) :=
    if gsA.state = GState.PLAYING then
      let gsB :=
        if keys.right then
          { gsA with spaceship := { gsA.spaceship with angle := (gsA.spaceship.angle - 10) % 360 } }
        else gsA
      let gsC :=
        if keys.left then
          { gsB with spaceship := { gsB.spaceship with angle := (gsB.spaceship.angle + 10) % 360 } }
        else gsB
      let gsD :=
        if keys.up then
          let gsE := gsC.physics env
          { gsE with spaceship := { gsE.spaceship with is_moving := true } }
        else { gsC with spaceship := { gsC.spaceship with is_moving := false } }
      match (if 0 < gsD.spaceship.active_missiles.length
             then missiles_physics env gsD seeds else some (gsD, seeds)) with
      | none => none
      | some (gsF, s2) =>
        if 0 < gsF.rocks.length then rocks_physics gsF s2 else some (gsF, s2)
    else some (gsA, seeds)
  match stepped with
  | none => none
  | some (gsG, s3) => drawStep gsG s3

/-- Iterate `refreshTick` a given number of times with fixed keys
and clock value (the clock only matters when firing). -/
def runTicks (env : Env) (keys : Keys) (now : ℚ) :
    ℕ → GameState → List Seed → Option (GameState × List Seed)
  | 0, gs, seeds => some (gs, seeds)
  | n + 1, gs, seeds =>
    match refreshTick env keys now gs seeds with
    | none => none
    | some (gs2, s2) => runTicks env keys now n gs2 s2

/-- Iterate `drawStep` alone, for reasoning about the spawn counter. -/
def runDraws : ℕ → GameState → List Seed → Option (GameState × List Seed)
  | 0, gs, seeds => some (gs, seeds)
  | n + 1, gs, seeds =>
    match drawStep gs seeds with
    | none => none
    | some (gs2, s2) => runDraws n gs2 s2

/-- The START event branch of `MyGame.run` (the respawn event armed
by `die`): with fewer than 1 life call `game_over`, otherwise clear
the rocks, make 4 fresh rocks and call `start`. -/
def startEvent (gs : GameState) (seeds : List Seed) : Option (GameState × List Seed) :=
  if gs.lives < 1 then some (gs.game_over, seeds)
  else do
    let (gs1, s1) ← GameState.make_rock RockSize.big { gs with rocks := [] } seeds
    let (gs2, s2) ← GameState.make_rock RockSize.big gs1 s1
    let (gs3, s3) ← GameState.make_rock RockSize.big gs2 s2
    let (gs4, s4) ← GameState.make_rock RockSize.big gs3 s3
    pure (gs4.start, s4)

/-- `MyGame.do_init` for the fixed 800 x 600 window: clear the
rocks, set the minimum spawn distance to 350, `start`, make 4 rocks,
then set lives to 3 and score and counter to 0. -/
def do_init (seeds : List Seed) : Option (GameState × List Seed) := do
  let gs0 : GameState :=
    { width := 800, height := 600, rocks := [], min_rock_distance := 350,
      lives := 0, score := 0, counter := 0, spaceship := initShip 800 600,
      missiles := [], state := GState.STARTING, fire_time := 0, FPS := 30 }
  let gs1 := gs0.start
  let (gs2, s2) ← GameState.make_rock RockSize.big gs1 seeds
  let (gs3, s3) ← GameState.make_rock RockSize.big gs2 s2
  let (gs4, s4) ← GameState.make_rock RockSize.big gs3 s3
  let (gs5, s5) ← GameState.make_rock RockSize.big gs4 s4
  pure ({ gs5 with lives := 3, score := 0, counter := 0 }, s5)

/-- Size-dependent squared-distance hit thresholds of
`missiles_physics`: 80 for big, 55 for normal, 30 for small. -/
def hitRadius : RockSize → ℚ
  | RockSize.big => 80
  | RockSize.normal => 55
  | RockSize.small => 30

/-- The rock a consumed seed turns into. -/
def mkRock (c : Seed) (sz : RockSize) : Rock :=
  { position := c.pos, size := sz, direction := c.dir, speed := 4 }

/-- The rocks that replace a destroyed rock of the given size, built
from the next seeds: two normal for big, two small for normal, and
one default-big for small. -/
def splitChildren : RockSize → Seed → Seed → List Rock
  | RockSize.big, s1, s2 => [mkRock s1 RockSize.normal, mkRock s2 RockSize.normal]
  | RockSize.normal, s1, s2 => [mkRock s1 RockSize.small, mkRock s2 RockSize.small]
  | RockSize.small, s1, _ => [mkRock s1 RockSize.big]

/-- Score value of destroying a rock of the given size. -/
def splitScore : RockSize → ℤ
  | RockSize.big => 20
  | RockSize.normal => 50
  | RockSize.small => 100

/-- Seeds left over after the split of a destroyed rock: big and
normal consume two seeds, small consumes one. -/
def splitSeedsLeft : RockSize → Seed → List Seed → List Seed
  | RockSize.big, _, rest => rest
  | RockSize.normal, _, rest => rest
  | RockSize.small, s2, rest => s2 :: rest

/-- Environment used by the concrete runs below: every heading maps
to the unit direction (0, -1) (the value of the trigonometric pair
at angle 0), and the ship image is 30 x 30 pixels. -/
def envZ : Env := { u := fun _ => (0, -1), shipW := 30, shipH := 30 }

/-- No key pressed. -/
def keysNone : Keys := { space := false, left := false, right := false, up := false }

/-- Only the space (fire) key pressed. -/
def keysFire : Keys := { space := true, left := false, right := false, up := false }

/-- A baseline PLAYING session state: the state right after `do_init`
with no rocks yet (concrete runs install their own rocks/missiles). -/
def baseGS : GameState :=
  { width := 800, height := 600, rocks := [], min_rock_distance := 350,
    lives := 3, score := 0, counter := 0, spaceship := initShip 800 600,
    missiles := [], state := GState.PLAYING, fire_time := 0, FPS := 30 }

/-- A rock with zero direction (the source's `random.random()` can
return 0.0, so a stationary rock is a possible draw). -/
def stillRock (p : ℚ × ℚ) (sz : RockSize) : Rock :=
  { position := p, size := sz, direction := (0, 0), speed := 4 }

/-- A missile with heading angle 0. -/
def missileAt (p : ℚ × ℚ) : Missile :=
  { position := p, angle := 0, direction := (0, 0), speed := 15 }

/-- A seed whose position is exactly 350 from the ship start (400, 300)
and whose rock drifts towards the ship at 0.9 of full speed. -/
def atkSeed : Seed := { pos := (50, 300), dir := (9 / 10, 0) }

/-- A seed far from everything relevant, with a stationary direction. -/
def seedFar : Seed := { pos := (50, 300), dir := (0, 0) }

/-- A stationary big rock 350 from the ship start and within the arena. -/
def farRock : Rock := stillRock (750, 300) RockSize.big

/-- A full session run: `do_init` spawns 4 rocks, all at (50, 300)
drifting towards the ship at 3.6 units per tick, then 73 REFRESH
ticks are processed with no key pressed.  At tick 73 all four rocks
are within 90 of the ship, so `die` runs four times in one pass. -/
def c4Trace : Option (GameState × List Seed) :=
  match do_init [atkSeed, atkSeed, atkSeed, atkSeed] with
  | none => none
  | some (gs, s) => runTicks envZ keysNone 0 73 gs s

/-- One big rock in hit range of the single missile. -/
def gsC1w : GameState :=
  { baseGS with rocks := [stillRock (400, 85) RockSize.big],
                spaceship := { initShip 800 600 with
                  active_missiles := [missileAt (400, 100)] } }

/-- Counter about to reach 30 x FPS with one rock active. -/
def gsC5a : GameState := { baseGS with counter := 899, rocks := [farRock] }

/-- Counter about to reach 30 x FPS with ten rocks active. -/
def gsC5b : GameState := { baseGS with counter := 899, rocks := List.replicate 10 farRock }

/-- Counter already past 30 x FPS. -/
def gsC5c : GameState := { baseGS with counter := 900 }

/-- One small rock beyond the arena's bounding circle. -/
def gsC6w : GameState := { baseGS with rocks := [stillRock (1000, 300) RockSize.small] }

/-- One missile far away from the single rock. -/
def gsC9w : GameState :=
  { baseGS with rocks := [farRock],
                spaceship := { initShip 800 600 with
                  active_missiles := [missileAt (100, 100)] } }

/-- A session on the start screen. -/
def gsC10w : GameState := { baseGS with state := GState.STARTING }

theorem pickSeedSplit_spec (ship : ℚ × ℚ) (minD : ℚ) (seeds : List Seed) (c : Seed)
    (rest : List Seed) (h : pickSeedSplit ship minD seeds = some (c, rest)) :
    ¬ dist2 c.pos ship < minD ^ 2 := by
  induction seeds with
  | nil => simp [pickSeedSplit] at h
  | cons s tail ih =>
    rw [pickSeedSplit] at h
    split at h
    · exact ih h
    · rename_i hge
      simp only [Option.some.injEq, Prod.mk.injEq] at h
      obtain ⟨rfl, rfl⟩ := h
      exact hge

theorem make_rock_aux_good_seed (ship : ℚ × ℚ) (minD : ℚ) (sz : RockSize)
    (rocks : List Rock) (c : Seed) (rest : List Seed)
    (hgood : ¬ dist2 c.pos ship < minD ^ 2) :
    make_rock_aux ship minD sz rocks (c :: rest) = some (rocks ++ [mkRock c sz], rest) := by
  unfold make_rock_aux pickSeedSplit
  rw [if_neg hgood]
  rfl

theorem make_rock_good_seed (sz : RockSize) (gs : GameState) (c : Seed) (rest : List Seed)
    (hgood : ¬ dist2 c.pos gs.spaceship.position < gs.min_rock_distance ^ 2) :
    GameState.make_rock sz gs (c :: rest) =
      some ({ gs with rocks := gs.rocks ++ [mkRock c sz] }, rest) := by
  unfold GameState.make_rock
  rw [make_rock_aux_good_seed _ _ _ _ _ _ hgood]

theorem runDraws_stuck (n : ℕ) : ∀ (gs : GameState) (seeds : List Seed),
    gs.state = GState.PLAYING → 30 * gs.FPS ≤ gs.counter →
    runDraws n gs seeds = some ({ gs with counter := gs.counter + n }, seeds) := by
  induction n with
  | zero => intro gs seeds h1 h2; simp [runDraws]
  | succ n ih =>
    intro gs seeds h1 h2
    have hstep : drawStep gs seeds = some ({ gs with counter := gs.counter + 1 }, seeds) := by
      unfold drawStep
      rw [if_pos h1, if_neg (show ¬ (gs.counter + 1 = 30 * gs.FPS) by omega)]
    have ih2 := ih { gs with counter := gs.counter + 1 } seeds h1
      (show 30 * gs.FPS ≤ gs.counter + 1 by omega)
    rw [runDraws, hstep]
    have h3 : ({ gs with counter := gs.counter + 1 + n } : GameState) =
        { gs with counter := gs.counter + (n + 1) } := by
      congr 1
      omega
    exact ih2.trans (by rw [h3])

theorem handle_fire_cases (env : Env) (gs : GameState) (space : Bool) (now : ℚ) :
    handle_fire env gs space now = gs ∨
    handle_fire env gs space now =
      { gs with spaceship := gs.spaceship.fire env, fire_time := now } := by
  unfold handle_fire
  split
  · split
    · right; rfl
    · left; rfl
  · left; rfl

theorem rockLoopF_no_hit (ship : ℚ × ℚ) (minD : ℚ) (mpos : ℚ × ℚ) (mi : ℕ) :
    ∀ (fuel j : ℕ) (st : MPass),
      (∀ r ∈ st.rocks, ¬ dist2 mpos r.position < (hitRadius r.size) ^ 2) →
      st.rocks.length - j < fuel →
      rockLoopF ship minD mpos mi fuel j st = some st := by
  intro fuel
  induction fuel with
  | zero => intro j st _ hlt; omega
  | succ fuel ih =>
    intro j st h hlt
    rw [rockLoopF]
    by_cases hj : j < st.rocks.length
    · rw [dif_pos hj]
      have hno := h (st.rocks[j]) (List.getElem_mem hj)
      rcases hsz : (st.rocks[j]).size with _ | _ | _
      · rw [hsz] at hno
        simp only [hitRadius] at hno
        dsimp only
        rw [hsz]
        rw [if_neg hno]
        exact ih (j + 1) st h (by omega)
      · rw [hsz] at hno
        simp only [hitRadius] at hno
        dsimp only
        rw [hsz]
        rw [if_neg hno]
        exact ih (j + 1) st h (by omega)
      · rw [hsz] at hno
        simp only [hitRadius] at hno
        dsimp only
        rw [hsz]
        rw [if_neg hno]
        exact ih (j + 1) st h (by omega)
    · rw [dif_neg hj]

theorem missileLoopF_no_hit (env : Env) (ship : ℚ × ℚ) (minD : ℚ) :
    ∀ (fuel i : ℕ) (st : MPass),
      (∀ m ∈ st.missiles.drop i, ∀ r ∈ st.rocks,
        ¬ dist2 ((m.move env).position) r.position < (hitRadius r.size) ^ 2) →
      st.missiles.length - i < fuel →
      st.removed = false →
      missileLoopF env ship minD fuel i st =
        some { st with
               missiles := st.missiles.take i ++ (st.missiles.drop i).map (Missile.move env) } := by
  intro fuel
  induction fuel with
  | zero => intro i st _ hlt _; omega
  | succ fuel ih =>
    intro i st h hlt hrem
    rw [missileLoopF]
    by_cases hi : i < st.missiles.length
    · rw [dif_pos hi]
      have hcur : st.missiles[i] ∈ st.missiles.drop i := by
        rw [List.drop_eq_getElem_cons hi]
        exact List.mem_cons_self _ _
      have hrp : rockPass ship minD (((st.missiles[i]).move env).position) i
          { st with missiles := st.missiles.set i ((st.missiles[i]).move env),
                    removed := false } =
          some { st with missiles := st.missiles.set i ((st.missiles[i]).move env),
                         removed := false } := by
        unfold rockPass
        exact rockLoopF_no_hit ship minD _ i _ 0 _
          (fun r hr => h _ hcur r hr) (by omega)
      dsimp only
      rw [hrp]
      have ih2 := ih (i + 1)
        { st with missiles := st.missiles.set i ((st.missiles[i]).move env), removed := false }
        (by
          intro m hm r hr
          dsimp only at hm hr
          rw [List.drop_set, if_pos (by omega)] at hm
          have hm2 : m ∈ st.missiles.drop i := by
            rw [List.drop_eq_getElem_cons hi]
            exact List.mem_cons_of_mem _ hm
          exact h m hm2 r hr)
        (by dsimp only; rw [List.length_set]; omega)
        rfl
      show missileLoopF env ship minD fuel (i + 1)
          { st with missiles := st.missiles.set i ((st.missiles[i]).move env),
                    removed := false } = _
      rw [ih2]
      have hmiss :
          (st.missiles.set i ((st.missiles[i]).move env)).take (i + 1) ++
            ((st.missiles.set i ((st.missiles[i]).move env)).drop (i + 1)).map
              (Missile.move env) =
          st.missiles.take i ++ (st.missiles.drop i).map (Missile.move env) := by
        rw [List.set_take, List.drop_set, if_pos (by omega)]
        rw [← List.take_concat_get _ _ hi, List.concat_eq_append]
        rw [List.set_append_right _ _ (by simp [List.length_take])]
        rw [List.drop_eq_getElem_cons hi]
        simp only [List.length_take, Nat.min_eq_left (Nat.le_of_lt hi), Nat.sub_self,
          List.set_cons_zero, List.map_cons, List.append_assoc, List.singleton_append]
      dsimp only
      rw [hmiss, hrem]
    · rw [dif_neg hi]
      have hle : st.missiles.length ≤ i := Nat.le_of_not_lt hi
      rw [List.take_of_length_le hle, List.drop_eq_nil_of_le hle]
      simp

/-- C1 (corrected, counterexample): destroying a small rock does not
add 0 new rocks as claimed: one missile destroys the only (small)
rock, the score rises by 100, and exactly one new rock appears, of
size big (`make_rock`'s default), because the small-rock branch of
`missiles_physics` calls `make_rock()` with no argument. -/
theorem missiles_small_split_cex :
    (missiles_physics envZ
        { baseGS with rocks := [stillRock (400, 85) RockSize.small],
                      spaceship := { initShip 800 600 with
                        active_missiles := [missileAt (400, 100)] } }
        [seedFar]).map
      (fun p => (p.1.rocks.map Rock.size, p.1.score)) = some ([RockSize.big], 100) := by
  with_unfolding_all decide

/-- C1 (corrected, amended): the split rule of `missiles_physics` for
a single missile destroying the single rock: a big rock is replaced
by exactly two normal rocks (+20), a normal rock by exactly two
small rocks (+50), and a small rock by exactly one big rock (+100),
each spawned from the next random seeds, with the missile removed. -/
theorem missiles_split_rule (env : Env) (gs : GameState) (m : Missile) (r : Rock)
    (s1 s2 : Seed) (rest : List Seed)
    (hm : gs.spaceship.active_missiles = [m])
    (hr : gs.rocks = [r])
    (hhit : dist2 ((m.move env).position) r.position < (hitRadius r.size) ^ 2)
    (hg1 : ¬ dist2 s1.pos gs.spaceship.position < gs.min_rock_distance ^ 2)
    (hg2 : ¬ dist2 s2.pos gs.spaceship.position < gs.min_rock_distance ^ 2)
    (hfar2 : ¬ dist2 ((m.move env).position) s2.pos < 80 ^ 2) :
    missiles_physics env gs (s1 :: s2 :: rest) =
      some ({ gs with rocks := splitChildren r.size s1 s2,
                      score := gs.score + splitScore r.size,
                      spaceship := { gs.spaceship with active_missiles := [] } },
            splitSeedsLeft r.size s2 rest) := by
  have hfar55 : ¬ dist2 ((m.move env).position) s2.pos < 55 ^ 2 :=
    fun hlt => hfar2 (hlt.trans (by norm_num))
  have hfar30 : ¬ dist2 ((m.move env).position) s2.pos < 30 ^ 2 :=
    fun hlt => hfar2 (hlt.trans (by norm_num))
  obtain ⟨w, ht, rocks, minD, lv, sc, cnt, ship, ms, stt, ft, fps⟩ := gs
  obtain ⟨spos, sang, sdir, smov, sspd, msl⟩ := ship
  dsimp only at hm hr hhit hg1 hg2
  subst hm hr
  obtain ⟨rpos, rsz, rdir, rspd⟩ := r
  dsimp only at hhit
  cases rsz
  · simp only [hitRadius] at hhit
    simp [missiles_physics, missileLoopF, rockPass, rockLoopF, List.length_cons,
      List.length_nil, List.getElem_cons_zero, List.set_cons_zero, List.eraseIdx_cons_zero,
      List.getElem_cons_succ, make_rock_aux, pickSeedSplit, mkRock, hhit, hg1, hg2, hfar55,
      splitChildren, splitScore, splitSeedsLeft]
  · simp only [hitRadius] at hhit
    simp [missiles_physics, missileLoopF, rockPass, rockLoopF, List.length_cons,
      List.length_nil, List.getElem_cons_zero, List.set_cons_zero, List.eraseIdx_cons_zero,
      List.getElem_cons_succ, make_rock_aux, pickSeedSplit, mkRock, hhit, hg1, hg2, hfar30,
      splitChildren, splitScore, splitSeedsLeft]
  · simp only [hitRadius] at hhit
    simp [missiles_physics, missileLoopF, rockPass, rockLoopF, List.length_cons,
      List.length_nil, List.getElem_cons_zero, List.set_cons_zero, List.eraseIdx_cons_zero,
      List.getElem_cons_succ, make_rock_aux, pickSeedSplit, mkRock, hhit, hg1, hg2,
      splitChildren, splitScore, splitSeedsLeft]

/-- C1 witness: the split rule applied to a concrete big rock. -/
theorem missiles_split_rule_witness :
    missiles_physics envZ gsC1w [seedFar, seedFar] =
      some ({ gsC1w with rocks := splitChildren RockSize.big seedFar seedFar,
                         score := gsC1w.score + splitScore RockSize.big,
                         spaceship := { gsC1w.spaceship with active_missiles := [] } },
            splitSeedsLeft RockSize.big seedFar []) :=
  missiles_split_rule envZ gsC1w (missileAt (400, 100)) (stillRock (400, 85) RockSize.big)
    seedFar seedFar [] rfl rfl (by with_unfolding_all decide) (by with_unfolding_all decide)
    (by with_unfolding_all decide) (by with_unfolding_all decide)

/-- C2 (code_bug): a PLAYING pass of `rocks_physics` over two rocks
that are both within 90 of the ship runs `die` twice: lives drop
from 3 to 1 in a single tick, not by exactly 1 as the claim states. -/
theorem rocks_double_die :
    (rocks_physics { baseGS with rocks := [stillRock (400, 380) RockSize.big,
                                           stillRock (400, 380) RockSize.big] } []).map
      (fun p => (p.1.lives, p.1.counter, p.1.state)) = some (1, 0, GState.DYING) := by
  with_unfolding_all decide

/-- C3 (code_bug): one missile, two small rocks both in hit range of
the moved missile (it ends at (400, 85); the rocks are at distance 0
and 5 of it).  The first rock is destroyed, but its removal shifts
the list under the live iterator, so the second in-range rock is
skipped and survives the pass untouched at (400, 80). -/
theorem missiles_skip_rock :
    (missiles_physics envZ
        { baseGS with rocks := [stillRock (400, 85) RockSize.small,
                                stillRock (400, 80) RockSize.small],
                      spaceship := { initShip 800 600 with
                        active_missiles := [missileAt (400, 100)] } }
        [seedFar]).map
      (fun p => (p.1.rocks.map (fun r => (r.position, r.size)), p.1.score,
                 p.1.spaceship.active_missiles)) =
      some ([((400, 80), RockSize.small), ((50, 300), RockSize.big)], 100, []) ∧
    dist2 (400, 85) (400, 80) < 30 ^ 2 := by
  constructor
  · with_unfolding_all decide
  · with_unfolding_all decide

/-- C4 (code_bug): a full reachable trace on which the lives counter
becomes negative: `do_init` spawns four rocks at distance exactly
350 that drift towards the ship; at tick 73 all four are within 90,
`die` runs four times in one `rocks_physics` pass, and lives go
3 to -1 (the fourth collision happens at lives = 0 and decrements
again instead of any GAME_OVER handling). -/
theorem lives_negative_trace :
    c4Trace.map (fun p => (p.1.lives, p.1.state)) = some (-1, GState.DYING) := by
  with_unfolding_all decide

set_option maxRecDepth 1000000 in
/-- C5 (corrected, counterexample): with ten rocks active, the tick
at which the counter reaches 30 x FPS = 900 spawns nothing and does
NOT reset the counter; afterwards, even with only 4 rocks active and
seeds available, 901 further PLAYING draw steps never spawn a rock:
timed spawning does not resume once the counter has passed 900. -/
theorem spawn_not_resumed_cex :
    (drawStep { baseGS with counter := 899, rocks := List.replicate 10 farRock } [seedFar]).map
      (fun p => (p.1.counter, p.1.rocks.length)) = some (900, 10) ∧
    (runDraws 901 { baseGS with counter := 900, rocks := List.replicate 4 farRock }
        [seedFar]).map
      (fun p => (p.1.rocks.length, p.1.counter)) = some (4, 1801) := by
  constructor
  · with_unfolding_all decide
  · with_unfolding_all decide

/-- C5 (corrected, amended): while PLAYING, the draw step spawns one
rock and resets the counter only when the incremented counter equals
exactly 30 x FPS and fewer than 10 rocks are active; with 10 or more
rocks at that mark nothing is spawned and the counter is NOT reset,
and from any counter at or past the mark, any number of further
PLAYING draw steps only increment the counter and never spawn. -/
theorem spawn_suppression_permanent (gs : GameState) (c : Seed) (rest : List Seed)
    (h1 : gs.state = GState.PLAYING) :
    (gs.counter + 1 = 30 * gs.FPS →
      gs.rocks.length < 10 →
      ¬ dist2 c.pos gs.spaceship.position < gs.min_rock_distance ^ 2 →
      drawStep gs (c :: rest) =
        some ({ gs with rocks := gs.rocks ++ [mkRock c RockSize.big], counter := 0 }, rest)) ∧
    (10 ≤ gs.rocks.length → gs.counter + 1 = 30 * gs.FPS →
      drawStep gs (c :: rest) = some ({ gs with counter := gs.counter + 1 }, c :: rest)) ∧
    (30 * gs.FPS ≤ gs.counter → ∀ (n : ℕ) (seeds : List Seed),
      runDraws n gs seeds = some ({ gs with counter := gs.counter + n }, seeds)) := by
  refine ⟨?_, ?_, ?_⟩
  · intro heq hlt hgood
    unfold drawStep
    rw [if_pos h1, if_pos heq, if_pos (show ({ gs with counter := gs.counter + 1 } :
          GameState).rocks.length < 10 from hlt),
        make_rock_good_seed RockSize.big { gs with counter := gs.counter + 1 } c rest hgood]
  · intro hge heq
    unfold drawStep
    rw [if_pos h1, if_pos heq,
        if_neg (by show ¬ gs.rocks.length < 10; omega)]
  · intro hge n seeds
    exact runDraws_stuck n gs seeds h1 hge

/-- C5 witness: the three parts of the amended spawn rule at
concrete states (counter 899 with 1 rock spawns and resets; counter
899 with 10 rocks only increments; counter 900 stays spawn-free). -/
theorem spawn_suppression_permanent_witness :
    drawStep gsC5a [seedFar] =
      some ({ gsC5a with rocks := gsC5a.rocks ++ [mkRock seedFar RockSize.big],
                         counter := 0 }, []) ∧
    drawStep gsC5b [seedFar] = some ({ gsC5b with counter := 900 }, [seedFar]) ∧
    runDraws 3 gsC5c [] = some ({ gsC5c with counter := 903 }, []) :=
  ⟨(spawn_suppression_permanent gsC5a seedFar [] rfl).1 (by decide) (by decide)
      (by with_unfolding_all decide),
   (spawn_suppression_permanent gsC5b seedFar [] rfl).2.1 (by decide) (by decide),
   (spawn_suppression_permanent gsC5c seedFar [] rfl).2.2 (by decide) 3 []⟩

/-- C6 (corrected, counterexample): a small rock beyond the arena's
bounding circle is recycled, but its replacement has size big
(`make_rock`'s default), not the removed rock's size. -/
theorem recycle_size_cex :
    (rocks_physics gsC6w [seedFar]).map (fun p => p.1.rocks.map Rock.size) =
      some [RockSize.big] := by
  with_unfolding_all decide

set_option maxHeartbeats 1000000 in
/-- C6 (corrected, amended): boundary recycling in `rocks_physics`
removes the out-of-circle rock (any size) and spawns exactly one
replacement of size big, the default of the argument-less
`make_rock()` call. -/
theorem recycle_spawns_big (gs : GameState) (r : Rock) (c : Seed) (rest : List Seed)
    (hr : gs.rocks = [r])
    (hsafe : ¬ dist2 (r.move).position gs.spaceship.position < 90 ^ 2)
    (hout : ((gs.width : ℚ) / 2) ^ 2 + ((gs.height : ℚ) / 2) ^ 2 <
      dist2 (r.move).position (((gs.width : ℚ) / 2), ((gs.height : ℚ) / 2)))
    (hgood : ¬ dist2 c.pos gs.spaceship.position < gs.min_rock_distance ^ 2) :
    rocks_physics gs (c :: rest) =
      some ({ gs with rocks := [mkRock c RockSize.big] }, rest) := by
  obtain ⟨w, ht, rocks, minD, lv, sc, cnt, ship, ms, stt, ft, fps⟩ := gs
  dsimp only at hr hsafe hout hgood
  subst hr
  unfold rocks_physics
  rw [if_pos (by simp)]
  simp only [List.length_cons, List.length_nil]
  rw [rocksLoopF]
  rw [dif_pos (by simp)]
  simp only [List.getElem_cons_zero, List.set_cons_zero]
  rw [if_neg hsafe, if_pos hout]
  simp only [List.eraseIdx_cons_zero]
  rw [make_rock_good_seed RockSize.big
    { width := w, height := ht, rocks := [], min_rock_distance := minD, lives := lv,
      score := sc, counter := cnt, spaceship := ship, missiles := ms, state := stt,
      fire_time := ft, FPS := fps } c rest hgood]
  show rocksLoopF 1 1 _ rest = _
  rw [rocksLoopF]
  rw [dif_neg (by simp)]
  rfl

/-- C6 witness: the recycling rule applied to a concrete small rock
at (1000, 300), outside the bounding circle of radius 500. -/
theorem recycle_spawns_big_witness :
    rocks_physics gsC6w [seedFar] =
      some ({ gsC6w with rocks := [mkRock seedFar RockSize.big] }, []) :=
  recycle_spawns_big gsC6w (stillRock (1000, 300) RockSize.small) seedFar [] rfl
    (by with_unfolding_all decide) (by with_unfolding_all decide)
    (by with_unfolding_all decide)

/-- C7 (corrected, counterexample): two fire actions separated by
exactly 0.15 seconds (the second at 23/20 = 1 + 3/20) produce only
one missile, because the source's comparison is strictly greater
than 0.15; the claim says both would be created. -/
theorem fire_rate_boundary_cex :
    ((handle_fire envZ (handle_fire envZ baseGS true 1) true
        (23 / 20)).spaceship.active_missiles).length = 1 ∧
    (23 / 20 : ℚ) - 1 = 3 / 20 := by
  constructor
  · with_unfolding_all decide
  · with_unfolding_all decide

/-- C7 (corrected, amended): after a successful fire at time t1, a
second fire at time t2 creates a second missile exactly when
t2 - t1 is strictly greater than 0.15 seconds; at a separation of
exactly 0.15 s (or less) only the first missile exists. -/
theorem fire_rate_rule (env : Env) (gs : GameState) (t1 t2 : ℚ)
    (h1 : t1 - gs.fire_time > 3 / 20) :
    ((handle_fire env (handle_fire env gs true t1) true t2).spaceship.active_missiles).length =
      gs.spaceship.active_missiles.length + (if t2 - t1 > 3 / 20 then 2 else 1) := by
  have e1 : handle_fire env gs true t1 =
      { gs with spaceship := gs.spaceship.fire env, fire_time := t1 } := by
    simp [handle_fire, h1]
  rw [e1]
  by_cases h2 : t2 - t1 > 3 / 20
  · simp [handle_fire, h2, Spaceship.fire]
  · simp [handle_fire, h2, Spaceship.fire]

/-- C7 witness: the fire-rate rule at times 1 and 2 from a state with
no missiles. -/
theorem fire_rate_rule_witness :
    ((handle_fire envZ (handle_fire envZ baseGS true 1) true 2).spaceship.active_missiles).length =
      baseGS.spaceship.active_missiles.length + (if (2 : ℚ) - 1 > 3 / 20 then 2 else 1) :=
  fire_rate_rule envZ baseGS 1 2 (by with_unfolding_all decide)

/-- C8 (confirmed): every rock `make_rock` returns is appended to the
rocks list and its position is at distance at least
min_rock_distance = 350 from the current ship position (squared
comparison), for every ship position, because the rejection loop
only accepts a candidate at squared distance at least 350 squared. -/
theorem make_rock_min_distance (sz : RockSize) (gs : GameState) (seeds : List Seed)
    (out : GameState × List Seed) (h : GameState.make_rock sz gs seeds = some out)
    (h350 : gs.min_rock_distance = 350) :
    ∃ r : Rock, out.1.rocks = gs.rocks ++ [r] ∧ r.size = sz ∧
      ¬ dist2 r.position gs.spaceship.position < 350 ^ 2 := by
  unfold GameState.make_rock make_rock_aux at h
  cases hp : pickSeedSplit gs.spaceship.position gs.min_rock_distance seeds with
  | none => rw [hp] at h; cases h
  | some cr =>
    rw [hp] at h
    obtain ⟨c, rest⟩ := cr
    simp only [Option.some.injEq] at h
    subst h
    refine ⟨_, rfl, rfl, ?_⟩
    have := pickSeedSplit_spec gs.spaceship.position gs.min_rock_distance seeds c rest hp
    rwa [h350] at this

set_option maxRecDepth 1000000 in
/-- C8 witness: `make_rock` on the baseline state with one seed at
(50, 300), exactly 350 from the ship at (400, 300). -/
theorem make_rock_min_distance_witness :
    GameState.make_rock RockSize.big baseGS [seedFar] =
      some ({ baseGS with rocks := [mkRock seedFar RockSize.big] }, []) ∧
    ∃ r : Rock, (({ baseGS with rocks := [mkRock seedFar RockSize.big] },
          ([] : List Seed)) : GameState × List Seed).1.rocks =
        baseGS.rocks ++ [r] ∧ r.size = RockSize.big ∧
        ¬ dist2 r.position baseGS.spaceship.position < 350 ^ 2 :=
  ⟨by with_unfolding_all decide,
   make_rock_min_distance RockSize.big baseGS [seedFar]
     ({ baseGS with rocks := [mkRock seedFar RockSize.big] }, [])
     (by with_unfolding_all decide) rfl⟩

set_option maxRecDepth 1000000 in
/-- C9 (corrected, counterexample): the first missile destroys the
rock and is removed, which shifts the missiles list under the live
iterator; the second missile, which is never within any rock's hit
threshold, is skipped for the tick and stays at (100, 500) instead
of moving, contradicting the claim that it keeps moving every
PLAYING tick. -/
theorem missile_skip_move_cex :
    (missiles_physics envZ
        { baseGS with rocks := [stillRock (400, 100) RockSize.small],
                      spaceship := { initShip 800 600 with
                        active_missiles := [missileAt (400, 115), missileAt (100, 500)] } }
        [seedFar]).map
      (fun p => p.1.spaceship.active_missiles.map Missile.position) =
      some [(100, 500)] := by
  with_unfolding_all decide

/-- C9 (corrected, amended): in a pass of `missiles_physics` in
which no missile comes within any rock's hit threshold, no missile
is removed and every missile advances by exactly one move (there is
no off-screen or lifetime culling), while rocks, score and seeds
are untouched; and every fire appends exactly one missile, so the
list can grow without bound. -/
theorem missiles_never_culled (env : Env) (gs : GameState) (seeds : List Seed)
    (hno : ∀ m ∈ gs.spaceship.active_missiles, ∀ r ∈ gs.rocks,
      ¬ dist2 ((m.move env).position) r.position < (hitRadius r.size) ^ 2) :
    missiles_physics env gs seeds =
      some ({ gs with spaceship := { gs.spaceship with
                active_missiles := gs.spaceship.active_missiles.map (Missile.move env) } },
            seeds) ∧
    ∀ s : Spaceship, ((s.fire env).active_missiles).length = s.active_missiles.length + 1 := by
  constructor
  · unfold missiles_physics
    by_cases hlen : 0 < gs.spaceship.active_missiles.length
    · rw [if_pos hlen]
      rw [missileLoopF_no_hit env gs.spaceship.position gs.min_rock_distance
        (gs.spaceship.active_missiles.length + 1) 0
        { rocks := gs.rocks, missiles := gs.spaceship.active_missiles,
          score := gs.score, seeds := seeds, removed := false }
        (by intro m hm r hr; exact hno m (by simpa using hm) r hr)
        (by simp)
        rfl]
      simp
    · rw [if_neg hlen]
      have hnil : gs.spaceship.active_missiles = [] :=
        List.eq_nil_of_length_eq_zero (by omega)
      have hmap : gs.spaceship.active_missiles.map (Missile.move env) =
          gs.spaceship.active_missiles := by
        rw [hnil]
        rfl
      rw [hmap]
  · intro s
    simp [Spaceship.fire]

/-- C9 witness: a pass with one missile far from the single rock
(every missile moves, none is removed), and one concrete fire
growing the list by one. -/
theorem missiles_never_culled_witness :
    missiles_physics envZ gsC9w [] =
      some ({ gsC9w with spaceship := { gsC9w.spaceship with
                active_missiles := gsC9w.spaceship.active_missiles.map (Missile.move envZ) } },
            []) ∧
    (((initShip 800 600).fire envZ).active_missiles).length =
      (initShip 800 600).active_missiles.length + 1 := by
  refine ⟨(missiles_never_culled envZ gsC9w [] ?_).1,
          (missiles_never_culled envZ gsC9w [] ?_).2 (initShip 800 600)⟩ <;>
    with_unfolding_all decide

/-- C10 (confirmed): a REFRESH tick processed in any state other
than PLAYING equals the fire check followed by an unchanged draw:
ship position and heading, the rocks (hence every rock position),
score, lives, counter and state are all unchanged, and the missile
list either stays the same or is that after exactly one fire
(the fire check runs regardless of state). -/
theorem tick_non_playing_frozen (env : Env) (keys : Keys) (now : ℚ) (gs : GameState)
    (seeds : List Seed) (h : gs.state ≠ GState.PLAYING) :
    refreshTick env keys now gs seeds = some (handle_fire env gs keys.space now, seeds) ∧
    (handle_fire env gs keys.space now).spaceship.position = gs.spaceship.position ∧
    (handle_fire env gs keys.space now).spaceship.angle = gs.spaceship.angle ∧
    (handle_fire env gs keys.space now).rocks = gs.rocks ∧
    (handle_fire env gs keys.space now).score = gs.score ∧
    (handle_fire env gs keys.space now).lives = gs.lives ∧
    (handle_fire env gs keys.space now).counter = gs.counter ∧
    (handle_fire env gs keys.space now).state = gs.state ∧
    ((handle_fire env gs keys.space now).spaceship.active_missiles =
        gs.spaceship.active_missiles ∨
      (handle_fire env gs keys.space now).spaceship.active_missiles =
        (gs.spaceship.fire env).active_missiles) := by
  have hA := handle_fire_cases env gs keys.space now
  have hstate : (handle_fire env gs keys.space now).state = gs.state := by
    rcases hA with hA | hA <;> rw [hA]
  have hcond : ¬ ((handle_fire env gs keys.space now).state = GState.PLAYING) := by
    rw [hstate]; exact h
  refine ⟨?_, ?_⟩
  · simp only [refreshTick]
    rw [if_neg hcond]
    show drawStep (handle_fire env gs keys.space now) seeds = _
    unfold drawStep
    rw [if_neg hcond]
  · rcases hA with hA | hA
    · rw [hA]
      exact ⟨rfl, rfl, rfl, rfl, rfl, rfl, rfl, Or.inl rfl⟩
    · rw [hA]
      refine ⟨?_, ?_, rfl, rfl, rfl, rfl, rfl, Or.inr rfl⟩
      · simp [Spaceship.fire]
      · simp [Spaceship.fire]

/-- C10 witness: a tick on the start screen with the fire key held
and enough time elapsed, so the fire branch is exercised. -/
theorem tick_non_playing_frozen_witness :
    refreshTick envZ keysFire 1 gsC10w [] =
      some (handle_fire envZ gsC10w keysFire.space 1, []) ∧
    (handle_fire envZ gsC10w keysFire.space 1).spaceship.position =
      gsC10w.spaceship.position ∧
    (handle_fire envZ gsC10w keysFire.space 1).spaceship.angle =
      gsC10w.spaceship.angle ∧
    (handle_fire envZ gsC10w keysFire.space 1).rocks = gsC10w.rocks ∧
    (handle_fire envZ gsC10w keysFire.space 1).score = gsC10w.score ∧
    (handle_fire envZ gsC10w keysFire.space 1).lives = gsC10w.lives ∧
    (handle_fire envZ gsC10w keysFire.space 1).counter = gsC10w.counter ∧
    (handle_fire envZ gsC10w keysFire.space 1).state = gsC10w.state ∧
    ((handle_fire envZ gsC10w keysFire.space 1).spaceship.active_missiles =
        gsC10w.spaceship.active_missiles ∨
      (handle_fire envZ gsC10w keysFire.space 1).spaceship.active_missiles =
        (gsC10w.spaceship.fire envZ).active_missiles) :=
  tick_non_playing_frozen envZ keysFire 1 gsC10w [] (by decide)

end Asteroids
